import Mathlib

/-!
Verification development for the ionic action-sheet overlay subsystem and the
segment-button component.

The embedding follows the TypeScript source:
* `ActionSheetCmp` methods `cancel`, `destructive`, `buttonClicked` and the
  component template (which dispatches `buttonClicked(i)` for the i-th
  rendered button) from `src/angular/src/app-initialize.ts`;
* `ActionSheet.open` / `ActionSheet.get` and the `OVERLAY_TYPE` constant from
  the same file;
* the four registered animation behaviors (`action-sheet-slide-in`,
  `action-sheet-slide-out`, `action-sheet-md-slide-in`,
  `action-sheet-md-slide-out`);
* `SegmentButton.checkedChanged` and `SegmentButton.onClick` from
  `src/unnamed/part_000`.

JavaScript values that matter here (truthiness of callback results and of the
`get` handle argument) are embedded as `JSVal`; invoking an absent callback is
a JavaScript `TypeError`, embedded as the `Except` error branch.
-/

namespace Ionic

/-- A JavaScript value, restricted to the shapes this subsystem inspects:
the embedding only ever asks for truthiness or equality. Numbers are embedded
as integers, which is enough for every value appearing in the source. -/
inductive JSVal where
  | undefined
  | null
  | bool (b : Bool)
  | num (n : Int)
  | str (s : String)
deriving Repr, DecidableEq

/-- JavaScript truthiness: `undefined`, `null`, `false`, `0` and the empty
string are falsy; every other embedded value is truthy. -/
def JSVal.truthy : JSVal → Bool
  | .undefined => false
  | .null => false
  | .bool b => b
  | .num n => !(n == 0)
  | .str s => !(s == "")

/-- A button entry of `ActionSheetOptions.buttons`: text plus optional icon. -/
structure Button where
  text : String
  icon : Option String := none
deriving Repr, DecidableEq

/-- Overlay visibility states of the presentation state machine. -/
inductive OverlayState where
  | entering
  | visible
  | leaving
  | removed
deriving Repr, DecidableEq

/-- The JavaScript fault raised when an absent member is invoked as a
function, as in `this.d.buttonClicked(index)` with no `buttonClicked` in the
options. -/
inductive JSError where
  | typeError
deriving Repr, DecidableEq

/-- One observable callback invocation performed by the presentation
component, recording which caller callback ran and with which argument. -/
inductive Call where
  | cancelCall
  | destructiveCall
  | buttonCall (i : Nat)
deriving Repr, DecidableEq

/-- The data object `this.d = params.data` of `ActionSheetCmp`: the merged
options, including the caller callbacks. A `none` callback is an absent
member of the options object. Callback results are `JSVal`, of which only
truthiness is inspected, exactly as in the source. -/
structure ActionSheetData where
  buttons : List Button := []
  titleText : Option String := none
  destructiveText : Option String := none
  cancelText : Option String := none
  cssClass : Option String := none
  cancel : Option (Unit → JSVal) := none
  destructiveButtonClicked : Option (Unit → JSVal) := none
  buttonClicked : Option (Nat → JSVal) := none

namespace ActionSheetCmp

/-- Modelled from the spec: the `close` method of the presentation component
is not under `src/`; per the specification it transitions the overlay to
`leaving`. -/
def close (_s : OverlayState) : OverlayState := .leaving

/-- `ActionSheetCmp.cancel`: `this.d.cancel && this.d.cancel(); return
this.close();` — runs the cancel callback when present (result discarded),
then closes unconditionally. The trace records each callback invocation. -/
def cancel (d : ActionSheetData) (s : OverlayState) :
    Except JSError (OverlayState × List Call) :=
  match d.cancel with
  | some f =>
      let _r := f ()
      .ok (close s, [.cancelCall])
  | none => .ok (close s, [])

/-- `ActionSheetCmp.destructive`: `if (this.d.destructiveButtonClicked()) {
return this.close(); }` — invoking an absent callback is a `TypeError`;
a truthy result closes, a falsy result leaves the state unchanged. -/
def destructive (d : ActionSheetData) (s : OverlayState) :
    Except JSError (OverlayState × List Call) :=
  match d.destructiveButtonClicked with
  | some f =>
      if (f ()).truthy then .ok (close s, [.destructiveCall])
      else .ok (s, [.destructiveCall])
  | none => .error .typeError

/-- `ActionSheetCmp.buttonClicked(index)`: `if (this.d.buttonClicked(index))
{ return this.close(); }` — the template dispatches this with the 0-indexed
position of the tapped button (`*ng-for="#b of d.buttons; #i=index"` with
`(click)="buttonClicked(i)"`). -/
def buttonClicked (d : ActionSheetData) (s : OverlayState) (index : Nat) :
    Except JSError (OverlayState × List Call) :=
  match d.buttonClicked with
  | some f =>
      if (f index).truthy then .ok (close s, [.buttonCall index])
      else .ok (s, [.buttonCall index])
  | none => .error .typeError

end ActionSheetCmp

/-- The process-wide configuration, read via `config.get(key)`. -/
structure Config where
  get : String → JSVal

/-- A caller-supplied (possibly incomplete) options object for
`ActionSheet.open`; a `none` field is a key absent from the object. -/
structure ActionSheetOpts where
  pageType : Option JSVal := none
  enterAnimation : Option JSVal := none
  leaveAnimation : Option JSVal := none
  cancelIcon : Option JSVal := none
  destructiveIcon : Option JSVal := none
  buttons : Option (List Button) := none
  titleText : Option JSVal := none
  destructiveText : Option JSVal := none
  cancelText : Option JSVal := none
  cssClass : Option JSVal := none
deriving Repr, DecidableEq

/-- Modelled from the spec: `extend` (imported from `util/util`, which is not
under `src/`) builds the merged object by copying every field present in the
second argument over the first, so a field the caller supplied wins and a
missing field keeps the default. -/
def extend (dst src : ActionSheetOpts) : ActionSheetOpts where
  pageType := src.pageType <|> dst.pageType
  enterAnimation := src.enterAnimation <|> dst.enterAnimation
  leaveAnimation := src.leaveAnimation <|> dst.leaveAnimation
  cancelIcon := src.cancelIcon <|> dst.cancelIcon
  destructiveIcon := src.destructiveIcon <|> dst.destructiveIcon
  buttons := src.buttons <|> dst.buttons
  titleText := src.titleText <|> dst.titleText
  destructiveText := src.destructiveText <|> dst.destructiveText
  cancelText := src.cancelText <|> dst.cancelText
  cssClass := src.cssClass <|> dst.cssClass

/-- `const OVERLAY_TYPE = 'action-sheet'`. -/
def OVERLAY_TYPE : String := "action-sheet"

/-- The overlay type a controller registration derives from the options
(`pageType` is set to `OVERLAY_TYPE` by the merge unless the caller overrode
it). -/
def pageTypeName (o : ActionSheetOpts) : String :=
  match o.pageType with
  | some (.str s) => s
  | _ => ""

/-- One overlay instance tracked by the controller: the type it registered
under, and the options it received as initialization data and render props. -/
structure OverlayInstance where
  overlayType : String
  initData : ActionSheetOpts
  renderProps : ActionSheetOpts
deriving Repr, DecidableEq

/-- Modelled from the spec: the external OverlayController tracks open
overlays by handle and by type; `registry` lists registrations most recent
first, and `nextHandle` feeds fresh opaque handles. -/
structure OverlayController where
  registry : List (JSVal × OverlayInstance) := []
  nextHandle : Nat := 0

namespace OverlayController

/-- Modelled from the spec: `OverlayController.open(componentType, initData,
renderProps)` instantiates the component, registers the instance under a
fresh opaque handle and under its overlay type, and resolves with the
handle once the overlay has entered. -/
def openOverlay (c : OverlayController) (initData renderProps : ActionSheetOpts) :
    OverlayController × JSVal :=
  let h : JSVal := .num ((c.nextHandle : Int) + 1)
  ({ registry := (h, ⟨pageTypeName initData, initData, renderProps⟩) :: c.registry,
     nextHandle := c.nextHandle + 1 }, h)

/-- Modelled from the spec: `getByHandle(handle)` returns the instance
registered under the handle, or an explicit not-found value. -/
def getByHandle (c : OverlayController) (h : JSVal) : Option OverlayInstance :=
  (c.registry.find? (fun p => decide (p.1 = h))).map Prod.snd

/-- Modelled from the spec: `getByType(type)` returns the most recently
active instance of the overlay type, or an explicit not-found value. -/
def getByType (c : OverlayController) (t : String) : Option OverlayInstance :=
  (c.registry.find? (fun p => decide (p.2.overlayType = t))).map Prod.snd

end OverlayController

namespace ActionSheet

/-- The defaults object literal built inside `ActionSheet.open`: `pageType:
OVERLAY_TYPE` plus the four configuration reads. -/
def defaultOpts (config : Config) : ActionSheetOpts where
  pageType := some (.str OVERLAY_TYPE)
  enterAnimation := some (config.get "actionSheetEnter")
  leaveAnimation := some (config.get "actionSheetLeave")
  cancelIcon := some (config.get "actionSheetCancelIcon")
  destructiveIcon := some (config.get "actionSheetDestructiveIcon")

/-- The merge `extend({...defaults}, opts)` performed by `ActionSheet.open`. -/
def mergedOpts (config : Config) (opts : ActionSheetOpts) : ActionSheetOpts :=
  extend (defaultOpts config) opts

/-- `ActionSheet.open(opts)`: merges the options with the configuration
defaults, then `this.ctrl.open(ActionSheetCmp, opts, opts)` — the merged
object is both initialization data and render props. Returns the updated
controller and the handle the deferred result resolves with. -/
def «open» (config : Config) (ctrl : OverlayController) (opts : ActionSheetOpts) :
    OverlayController × JSVal :=
  let merged := mergedOpts config opts
  ctrl.openOverlay merged merged

/-- `ActionSheet.get(handle)`: `if (handle) return
this.ctrl.getByHandle(handle); return this.ctrl.getByType(OVERLAY_TYPE);` —
a truthy handle is looked up in the handle registry, anything else falls
back to the by-type lookup. A missing argument is `undefined`. -/
def get (ctrl : OverlayController) (handle : JSVal) : Option OverlayInstance :=
  if handle.truthy then ctrl.getByHandle handle
  else ctrl.getByType OVERLAY_TYPE

end ActionSheet

/-- One registered animation behavior: the backdrop opacity bounds, the
wrapper vertical-translation bounds, the duration in milliseconds and the
easing curve, exactly as written in the corresponding `Animation` subclass. -/
structure AnimDef where
  backdropOpacity : ℚ × ℚ
  wrapperTranslateY : String × String
  durationMs : Nat
  easing : String
deriving Repr, DecidableEq

/-- `ActionSheetSlideIn`: backdrop opacity 0.01 to 0.4, wrapper translateY
100% to 0%, duration 400, cubic-bezier easing. -/
def actionSheetSlideIn : AnimDef where
  backdropOpacity := (0.01, 0.4)
  wrapperTranslateY := ("100%", "0%")
  durationMs := 400
  easing := "cubic-bezier(.36,.66,.04,1)"

/-- `ActionSheetSlideOut`: backdrop opacity 0.4 to 0, wrapper translateY 0%
to 100%, duration 300, cubic-bezier easing. -/
def actionSheetSlideOut : AnimDef where
  backdropOpacity := (0.4, 0)
  wrapperTranslateY := ("0%", "100%")
  durationMs := 300
  easing := "cubic-bezier(.36,.66,.04,1)"

/-- `ActionSheetMdSlideIn`: backdrop opacity 0.01 to 0.26, wrapper
translateY 100% to 0%, duration 450, cubic-bezier easing. -/
def actionSheetMdSlideIn : AnimDef where
  backdropOpacity := (0.01, 0.26)
  wrapperTranslateY := ("100%", "0%")
  durationMs := 450
  easing := "cubic-bezier(.36,.66,.04,1)"

/-- `ActionSheetMdSlideOut`: backdrop opacity 0.26 to 0, wrapper translateY
0% to 100%, duration 450, cubic-bezier easing. -/
def actionSheetMdSlideOut : AnimDef where
  backdropOpacity := (0.26, 0)
  wrapperTranslateY := ("0%", "100%")
  durationMs := 450
  easing := "cubic-bezier(.36,.66,.04,1)"

/-- The `Animation.register` calls, in source order. -/
def animationRegistrations : List (String × AnimDef) :=
  [("action-sheet-slide-in", actionSheetSlideIn),
   ("action-sheet-slide-out", actionSheetSlideOut),
   ("action-sheet-md-slide-in", actionSheetMdSlideIn),
   ("action-sheet-md-slide-out", actionSheetMdSlideOut)]

namespace SegmentButton

/-- `SegmentButton.checkedChanged(checked, prev)` emits `ionSelect` exactly
when `checked && !prev`; this function returns whether the emission fires. -/
def checkedChanged (checked prev : Bool) : Bool := checked && !prev

/-- Setting the `checked` property: the watcher observes the new and the
previous value; the result is the new `checked` value paired with the number
of `ionSelect` emissions this change produces. -/
def setChecked (prev next : Bool) : Bool × Nat :=
  (next, if checkedChanged next prev then 1 else 0)

/-- `SegmentButton.onClick`: `this.checked = true`. -/
def onClick (prev : Bool) : Bool × Nat := setChecked prev true

end SegmentButton

end Ionic

open Ionic

/-- C1: for every options object with N buttons and a tap at position i
(0 <= i < N), the presentation component invokes the caller buttonClicked
callback with exactly the index i (the trace is the single call at i), and
the overlay transitions to leaving (close) iff the callback result is
truthy; otherwise the state stays visible. -/
theorem claim1_button_tap (d : ActionSheetData) (f : Nat → JSVal) (i : Nat)
    (hf : d.buttonClicked = some f) (_hi : i < d.buttons.length) :
    ActionSheetCmp.buttonClicked d .visible i =
      .ok ((if (f i).truthy then .leaving else .visible), [.buttonCall i]) := by
  simp only [ActionSheetCmp.buttonClicked, hf, ActionSheetCmp.close]
  split <;> rfl

/-- Witness for C1 at a concrete one-button options object whose callback
answers truthily exactly at index 0. -/
theorem claim1_button_tap_witness :
    ActionSheetCmp.buttonClicked
      { buttons := [{ text := "A" }],
        buttonClicked := some (fun i => .bool (decide (i = 0))) }
      .visible 0 = .ok (.leaving, [.buttonCall 0]) :=
  claim1_button_tap _ (fun i => .bool (decide (i = 0))) 0 rfl (by decide)

/-- C2: a cancel interaction (backdrop tap or cancel button both dispatch
the cancel method) invokes the caller cancel callback exactly once when
present, skips it without error when absent, ignores its return value (the
callback f is arbitrary), and unconditionally transitions to leaving. -/
theorem claim2_cancel (d : ActionSheetData) (s : OverlayState) :
    (∀ f, d.cancel = some f →
        ActionSheetCmp.cancel d s = .ok (.leaving, [.cancelCall])) ∧
    (d.cancel = none → ActionSheetCmp.cancel d s = .ok (.leaving, [])) := by
  constructor
  · intro f hf
    simp [ActionSheetCmp.cancel, hf, ActionSheetCmp.close]
  · intro h
    simp [ActionSheetCmp.cancel, h, ActionSheetCmp.close]

/-- Witness for C2: a concrete cancel callback returning a falsy value
still closes, and its invocation is recorded exactly once. -/
theorem claim2_cancel_witness :
    ActionSheetCmp.cancel { cancel := some (fun _ => .undefined) } .visible
      = .ok (.leaving, [.cancelCall]) :=
  (claim2_cancel { cancel := some (fun _ => .undefined) } .visible).1 _ rfl

/-- C3 counterexample: the claim asserts the error branch of invoking an
absent callback is unreachable, but with destructiveText present and no
destructiveButtonClicked callback the destructive tap faults with a
TypeError, and likewise a button tap with no buttonClicked callback. -/
theorem claim3_absent_callback_counterexample :
    ActionSheetCmp.destructive { destructiveText := some "Delete" } .visible
        = .error .typeError ∧
    ActionSheetCmp.buttonClicked { buttons := [{ text := "X" }] } .visible 0
        = .error .typeError :=
  ⟨rfl, rfl⟩

/-- C3 amended: the destructive and regular-button paths transition to
leaving iff their callback is present and returns a truthy value (falsy
keeps the current state); when the callback is omitted the invocation
faults with a TypeError — close is not called, but the fault branch is
reached rather than being unreachable. -/
theorem claim3_close_iff_truthy (d : ActionSheetData) (s : OverlayState) :
    (∀ f, d.destructiveButtonClicked = some f →
        ActionSheetCmp.destructive d s =
          .ok ((if (f ()).truthy then .leaving else s), [.destructiveCall])) ∧
    (d.destructiveButtonClicked = none →
        ActionSheetCmp.destructive d s = .error .typeError) ∧
    (∀ f i, d.buttonClicked = some f →
        ActionSheetCmp.buttonClicked d s i =
          .ok ((if (f i).truthy then .leaving else s), [.buttonCall i])) ∧
    (∀ i, d.buttonClicked = none →
        ActionSheetCmp.buttonClicked d s i = .error .typeError) := by
  refine ⟨fun f hf => ?_, fun h => ?_, fun f i hf => ?_, fun i h => ?_⟩
  · simp only [ActionSheetCmp.destructive, hf, ActionSheetCmp.close]
    split <;> rfl
  · simp [ActionSheetCmp.destructive, h]
  · simp only [ActionSheetCmp.buttonClicked, hf, ActionSheetCmp.close]
    split <;> rfl
  · simp [ActionSheetCmp.buttonClicked, h]

/-- Witness for C3 amended: a destructive callback returning false keeps
the overlay visible. -/
theorem claim3_close_iff_truthy_witness :
    ActionSheetCmp.destructive
      { destructiveButtonClicked := some (fun _ => .bool false) } .visible
      = .ok (.visible, [.destructiveCall]) :=
  (claim3_close_iff_truthy
      { destructiveButtonClicked := some (fun _ => .bool false) } .visible).1 _ rfl

/-- C4: the merged options fill each field the caller omitted from the
corresponding Configuration key (enterAnimation from actionSheetEnter,
leaveAnimation from actionSheetLeave, cancelIcon from actionSheetCancelIcon,
destructiveIcon from actionSheetDestructiveIcon), and every field the caller
supplied keeps the caller value. -/
theorem claim4_merge_defaults (config : Config) (opts : ActionSheetOpts) :
    ((opts.enterAnimation = none →
        (ActionSheet.mergedOpts config opts).enterAnimation
          = some (config.get "actionSheetEnter")) ∧
     (opts.leaveAnimation = none →
        (ActionSheet.mergedOpts config opts).leaveAnimation
          = some (config.get "actionSheetLeave")) ∧
     (opts.cancelIcon = none →
        (ActionSheet.mergedOpts config opts).cancelIcon
          = some (config.get "actionSheetCancelIcon")) ∧
     (opts.destructiveIcon = none →
        (ActionSheet.mergedOpts config opts).destructiveIcon
          = some (config.get "actionSheetDestructiveIcon"))) ∧
    ((∀ v, opts.pageType = some v →
        (ActionSheet.mergedOpts config opts).pageType = some v) ∧
     (∀ v, opts.enterAnimation = some v →
        (ActionSheet.mergedOpts config opts).enterAnimation = some v) ∧
     (∀ v, opts.leaveAnimation = some v →
        (ActionSheet.mergedOpts config opts).leaveAnimation = some v) ∧
     (∀ v, opts.cancelIcon = some v →
        (ActionSheet.mergedOpts config opts).cancelIcon = some v) ∧
     (∀ v, opts.destructiveIcon = some v →
        (ActionSheet.mergedOpts config opts).destructiveIcon = some v) ∧
     (∀ v, opts.buttons = some v →
        (ActionSheet.mergedOpts config opts).buttons = some v) ∧
     (∀ v, opts.titleText = some v →
        (ActionSheet.mergedOpts config opts).titleText = some v) ∧
     (∀ v, opts.destructiveText = some v →
        (ActionSheet.mergedOpts config opts).destructiveText = some v) ∧
     (∀ v, opts.cancelText = some v →
        (ActionSheet.mergedOpts config opts).cancelText = some v) ∧
     (∀ v, opts.cssClass = some v →
        (ActionSheet.mergedOpts config opts).cssClass = some v)) := by
  unfold ActionSheet.mergedOpts ActionSheet.defaultOpts extend
  exact ⟨⟨fun h => by simp [h], fun h => by simp [h], fun h => by simp [h],
          fun h => by simp [h]⟩,
         fun v h => by simp [h], fun v h => by simp [h], fun v h => by simp [h],
         fun v h => by simp [h], fun v h => by simp [h], fun v h => by simp [h],
         fun v h => by simp [h], fun v h => by simp [h], fun v h => by simp [h],
         fun v h => by simp [h]⟩

/-- Witness for C4: with Configuration actionSheetEnter answering the string
slide-in, the merge of the empty options object yields enterAnimation
slide-in, and a caller-supplied cancelText survives the merge. -/
theorem claim4_merge_defaults_witness :
    (ActionSheet.mergedOpts ⟨fun _ => .str "slide-in"⟩ {}).enterAnimation
        = some (.str "slide-in") ∧
    (ActionSheet.mergedOpts ⟨fun _ => .str "slide-in"⟩
        { cancelText := some (.str "Cancel") }).cancelText
        = some (.str "Cancel") :=
  ⟨(claim4_merge_defaults ⟨fun _ => .str "slide-in"⟩ {}).1.1 rfl,
   (claim4_merge_defaults ⟨fun _ => .str "slide-in"⟩
      { cancelText := some (.str "Cancel") }).2.2.2.2.2.2.2.2.2.1 _ rfl⟩

/-- C5: round trip of open and get — with the handle returned by open, get
returns the registered instance, whose initialization data and render props
are both exactly the merged options open computed. -/
theorem claim5_round_trip (config : Config) (ctrl : OverlayController)
    (opts : ActionSheetOpts) :
    ActionSheet.get (ActionSheet.«open» config ctrl opts).1
        (ActionSheet.«open» config ctrl opts).2 =
      some { overlayType := pageTypeName (ActionSheet.mergedOpts config opts),
             initData := ActionSheet.mergedOpts config opts,
             renderProps := ActionSheet.mergedOpts config opts } := by
  have ht : JSVal.truthy (.num ((ctrl.nextHandle : Int) + 1)) = true := by
    simp [JSVal.truthy]
    omega
  unfold ActionSheet.«open» OverlayController.openOverlay ActionSheet.get
  simp [ht, OverlayController.getByHandle, List.find?]

/-- C6: with a truthy handle, get is exactly the handle-registry lookup —
a hit returns the instance registered under that handle (present in the
registry), a miss returns the explicit not-found value none rather than an
error; with no handle (undefined), get is the by-type lookup for the
action-sheet overlay type, i.e. the most recent matching registration.
get is a pure function of the controller state, so the registry is
unchanged by it. -/
theorem claim6_get_lookup (ctrl : OverlayController) (h : JSVal) :
    (h.truthy = true → ActionSheet.get ctrl h = ctrl.getByHandle h) ∧
    (h.truthy = true → (∀ p ∈ ctrl.registry, p.1 ≠ h) →
        ActionSheet.get ctrl h = none) ∧
    (∀ inst, h.truthy = true → ActionSheet.get ctrl h = some inst →
        (h, inst) ∈ ctrl.registry) ∧
    (ActionSheet.get ctrl .undefined = ctrl.getByType OVERLAY_TYPE) := by
  refine ⟨fun ht => by simp [ActionSheet.get, ht], fun ht hmiss => ?_,
          fun inst ht hget => ?_, by simp [ActionSheet.get, JSVal.truthy]⟩
  · simp only [ActionSheet.get, ht, if_true, OverlayController.getByHandle]
    have : ctrl.registry.find? (fun p => decide (p.1 = h)) = none := by
      rw [List.find?_eq_none]
      intro p hp
      simpa using hmiss p hp
    simp [this]
  · simp only [ActionSheet.get, ht, if_true, OverlayController.getByHandle] at hget
    obtain ⟨p, hp, hsnd⟩ := Option.map_eq_some'.1 hget
    have hpred : (fun q : JSVal × OverlayInstance => decide (q.1 = h)) p = true :=
      List.find?_some (p := fun q : JSVal × OverlayInstance => decide (q.1 = h)) hp
    have hfst : p.1 = h := of_decide_eq_true hpred
    have hmem := List.mem_of_find?_eq_some hp
    cases p with
    | mk a b =>
        cases hfst
        cases hsnd
        exact hmem

/-- Witness for C6: on a controller with a single registration under handle
1, a lookup with the unregistered truthy handle 2 returns the explicit
not-found value. -/
theorem claim6_get_lookup_witness :
    ActionSheet.get
      { registry := [(.num 1, ⟨"action-sheet", {}, {}⟩)], nextHandle := 1 }
      (.num 2) = none :=
  (claim6_get_lookup
      { registry := [(.num 1, ⟨"action-sheet", {}, {}⟩)], nextHandle := 1 }
      (.num 2)).2.1 (by decide) (by decide)

/-- C8: open reads Configuration only through the four actionSheet keys —
two configurations agreeing on those keys produce identical merged options
and identical open results, for every controller and caller options object.
Writing is excluded by construction: open produces no configuration, and the
merge builds a fresh options record, leaving the caller record intact. -/
theorem claim8_config_frame (c1 c2 : Config) (ctrl : OverlayController)
    (opts : ActionSheetOpts)
    (hE : c1.get "actionSheetEnter" = c2.get "actionSheetEnter")
    (hL : c1.get "actionSheetLeave" = c2.get "actionSheetLeave")
    (hC : c1.get "actionSheetCancelIcon" = c2.get "actionSheetCancelIcon")
    (hD : c1.get "actionSheetDestructiveIcon" = c2.get "actionSheetDestructiveIcon") :
    ActionSheet.mergedOpts c1 opts = ActionSheet.mergedOpts c2 opts ∧
    ActionSheet.«open» c1 ctrl opts = ActionSheet.«open» c2 ctrl opts := by
  have hm : ActionSheet.mergedOpts c1 opts = ActionSheet.mergedOpts c2 opts := by
    unfold ActionSheet.mergedOpts ActionSheet.defaultOpts extend
    rw [hE, hL, hC, hD]
  exact ⟨hm, by unfold ActionSheet.«open»; rw [hm]⟩

/-- Witness for C8: two configurations that differ on an unrelated key but
agree on the four actionSheet keys merge identically. -/
theorem claim8_config_frame_witness :
    ActionSheet.mergedOpts ⟨fun _ => .str "v"⟩ {} =
      ActionSheet.mergedOpts ⟨fun k => if k = "other" then .num 3 else .str "v"⟩ {} :=
  (claim8_config_frame ⟨fun _ => .str "v"⟩
      ⟨fun k => if k = "other" then .num 3 else .str "v"⟩ {} {}
      (by decide) (by decide) (by decide) (by decide)).1

/-- C9: every falsy handle argument (undefined, null, the number 0, the
empty string) makes get bypass the handle registry and fall back to the
by-type lookup for the action-sheet type, on every controller state; only a
truthy handle is routed to getByHandle. -/
theorem claim9_falsy_handle :
    JSVal.truthy .undefined = false ∧ JSVal.truthy .null = false ∧
    JSVal.truthy (.num 0) = false ∧ JSVal.truthy (.str "") = false ∧
    (∀ (ctrl : OverlayController) (h : JSVal), h.truthy = false →
        ActionSheet.get ctrl h = ctrl.getByType OVERLAY_TYPE) ∧
    (∀ (ctrl : OverlayController) (h : JSVal), h.truthy = true →
        ActionSheet.get ctrl h = ctrl.getByHandle h) := by
  refine ⟨rfl, rfl, by decide, by decide,
          fun ctrl h hh => ?_, fun ctrl h hh => ?_⟩ <;>
    simp [ActionSheet.get, hh]

/-- Witness for C9: a null handle on the empty controller is answered by the
by-type lookup. -/
theorem claim9_falsy_handle_witness :
    ActionSheet.get {} .null = OverlayController.getByType {} OVERLAY_TYPE :=
  claim9_falsy_handle.2.2.2.2.1 {} .null rfl

/-- C7 counterexample: the claim says the alternate-style (md) backdrop
opacity enters 0 to 0.26 and that leave reverses enter; in the source the
md slide-in starts at 0.01 (not 0), and the default-style slide-out ends at
0 (not back at the 0.01 the enter started from). -/
theorem claim7_animation_counterexample :
    actionSheetMdSlideIn.backdropOpacity = (0.01, 0.26) ∧ (0.01 : ℚ) ≠ 0 ∧
    actionSheetSlideOut.backdropOpacity = (0.4, 0) ∧ (0 : ℚ) ≠ 0.01 :=
  ⟨rfl, by norm_num, rfl, by norm_num⟩

/-- C7 amended: entering, the backdrop opacity animates 0.01 to 0.4 for the
default style and 0.01 to 0.26 for the alternate style; leaving, it animates
0.4 to 0 and 0.26 to 0 respectively (down to 0, not the exact reverse of the
enter bounds); the wrapper animates translateY 100% to 0% entering and 0% to
100% leaving; the durations are fixed (enter 400 ms and leave 300 ms for the
default style, 450 ms both ways for the alternate style) and every behavior
uses the fixed easing curve cubic-bezier(.36,.66,.04,1). -/
theorem claim7_animation_bounds :
    animationRegistrations =
      [("action-sheet-slide-in", actionSheetSlideIn),
       ("action-sheet-slide-out", actionSheetSlideOut),
       ("action-sheet-md-slide-in", actionSheetMdSlideIn),
       ("action-sheet-md-slide-out", actionSheetMdSlideOut)] ∧
    actionSheetSlideIn =
      { backdropOpacity := (0.01, 0.4), wrapperTranslateY := ("100%", "0%"),
        durationMs := 400, easing := "cubic-bezier(.36,.66,.04,1)" } ∧
    actionSheetSlideOut =
      { backdropOpacity := (0.4, 0), wrapperTranslateY := ("0%", "100%"),
        durationMs := 300, easing := "cubic-bezier(.36,.66,.04,1)" } ∧
    actionSheetMdSlideIn =
      { backdropOpacity := (0.01, 0.26), wrapperTranslateY := ("100%", "0%"),
        durationMs := 450, easing := "cubic-bezier(.36,.66,.04,1)" } ∧
    actionSheetMdSlideOut =
      { backdropOpacity := (0.26, 0), wrapperTranslateY := ("0%", "100%"),
        durationMs := 450, easing := "cubic-bezier(.36,.66,.04,1)" } :=
  ⟨rfl, rfl, rfl, rfl, rfl⟩

/-- C10: the segment button emits ionSelect exactly on a rising edge of the
checked property — a click on an unchecked button sets checked to true and
emits once, a click on an already-checked button emits nothing, and a change
of checked from true to true or to false emits nothing. -/
theorem claim10_rising_edge :
    (∀ prev next : Bool,
        (SegmentButton.setChecked prev next).2 = 1
          ↔ (prev = false ∧ next = true)) ∧
    (∀ prev next : Bool,
        SegmentButton.checkedChanged next prev = (next && !prev)) ∧
    SegmentButton.onClick false = (true, 1) ∧
    SegmentButton.onClick true = (true, 0) := by
  refine ⟨?_, ?_, rfl, rfl⟩ <;> decide
